import Mathlib

/-!
Verification of the Orizon authentication gateway's identity-and-credential
lifecycle subsystem: the header extractor and auth-dispatch middleware
(embedded from `src/orizon/auth/utils.py` and `src/orizon/auth/middleware.py`),
and the token store, session store, credential provisioner and auth routes
(modelled from the specification, since their modules are not present in the
source tree — only their tests are).
-/

namespace Orizon

/-- An inbound HTTP request: the URL path plus the request headers, modelled
as an association list from header name to header value.  A header that is
absent from the list corresponds to `request.headers.get(h)` returning `None`
in Python; a header present with value `""` corresponds to it returning the
empty string. -/
structure Request where
  path : String
  headers : List (String × String)
deriving DecidableEq

/-- `headers.get(h)`: look a header up by name, `none` when absent. -/
def headerGet (hs : List (String × String)) (k : String) : Option String :=
  (hs.find? (fun p => p.1 == k)).map (fun p => p.2)

/-- Python's `or` on two `Optional[str]` values: the left operand is the
result when it is truthy (present and non-empty), otherwise the result is
the right operand, whatever it is.  Note `"" or None` is `None` and
`None or ""` is `""`. -/
def pyOr (a b : Option String) : Option String :=
  match a with
  | none => b
  | some s => if s = "" then b else some s

/-- Python truthiness of an `Optional[str]`: `None` and `""` are falsy. -/
def pyTruthy : Option String → Bool
  | none => false
  | some s => s ≠ ""

/-- Embeds `get_user_email` from `src/orizon/auth/utils.py`:
`request.headers.get("X-Auth-Request-Email") or request.headers.get("X-Email")`
(the subsequent `if email:` only logs and does not alter the result). -/
def get_user_email (req : Request) : Option String :=
  pyOr (headerGet req.headers "X-Auth-Request-Email")
       (headerGet req.headers "X-Email")

/-- Embeds `get_user_name` from `src/orizon/auth/utils.py`:
`request.headers.get("X-Auth-Request-User") or request.headers.get("X-User")`. -/
def get_user_name (req : Request) : Option String :=
  pyOr (headerGet req.headers "X-Auth-Request-User")
       (headerGet req.headers "X-User")

/-- Which branch of `OrizonAuthMiddleware.dispatch` a request takes
(`src/orizon/auth/middleware.py`): the health bypass, the internal-user
branch (`if user_email:` — Python truthiness), or the external branch. -/
inductive DispatchBranch where
  | health
  | internal
  | external
deriving DecidableEq

/-- Python's `s.startswith(p)`, as a check on the character sequences. -/
def startswith (s p : String) : Bool :=
  p.toList.isPrefixOf s.toList

/-- The branch selected by `dispatch` for a request, read off the source's
control flow: `request.url.path.startswith("/health")` first, then
`if user_email:` on the extracted email. -/
def dispatchBranch (req : Request) : DispatchBranch :=
  if startswith req.path "/health" then .health
  else if pyTruthy (get_user_email req) then .internal
  else .external

/-- Embeds `OrizonAuthMiddleware.dispatch` from `src/orizon/auth/middleware.py`.
`callNext` is the next handler; the second component of the result collects
every request forwarded to `callNext`, in order, so that "forwarded exactly
once, unmodified" is visible in the type.

Source control flow: health paths return `await call_next(request)` at once;
on the internal branch the `try` block is only comments and `pass` (user
provisioning and Authorization-header attachment are pending TODOs) and the
`except` clause logs and continues; the external branch only logs.  All
branches then run `response = await call_next(request); return response`
on the unmodified request. -/
def dispatch {ρ : Type} (callNext : Request → ρ) (req : Request) : ρ × List Request :=
  if startswith req.path "/health" then
    (callNext req, [req])
  else if pyTruthy (get_user_email req) then
    (callNext req, [req])
  else
    (callNext req, [req])

/-! ## Token generation

Modelled from the spec: token issuance "generates a new unguessable token"
(an opaque high-entropy string).  The generator is modelled as the URL-safe
base64 rendering of a vector of random bytes, the source of randomness being
an explicit byte-list argument. -/

/-- The URL-safe base64 alphabet, indexed 0–63. -/
def b64Char (i : Nat) : Char :=
  "ABCDEFGHIJKLMNOPQRSTUVWXYZabcdefghijklmnopqrstuvwxyz0123456789-_".toList.getD i 'A'

/-- URL-safe base64 encoding of a byte list, without padding: each full group
of three bytes yields four characters; a final group of one or two bytes
yields two or three characters. -/
def b64Encode : List Nat → List Char
  | b0 :: b1 :: b2 :: rest =>
      b64Char (b0 / 4) :: b64Char ((b0 % 4) * 16 + b1 / 16) ::
      b64Char ((b1 % 16) * 4 + b2 / 64) :: b64Char (b2 % 64) :: b64Encode rest
  | [b0, b1] =>
      [b64Char (b0 / 4), b64Char ((b0 % 4) * 16 + b1 / 16), b64Char ((b1 % 16) * 4)]
  | [b0] =>
      [b64Char (b0 / 4), b64Char ((b0 % 4) * 16)]
  | [] => []

/-- Modelled from the spec: the unguessable-token generator (Python's
`secrets.token_urlsafe`), applied to the byte list drawn from the system
entropy source. -/
def tokenUrlsafe (bytes : List Nat) : String :=
  String.mk (b64Encode bytes)

/-! ## Token Store

Modelled from the spec: the module `orizon.auth.tokens` is not present in the
source tree (only `src/tests/orizon/auth/test_tokens.py` is), so the store is
modelled from §4.2 of the spec, with the stored-record shape taken from the
tests: the backing store keeps a hash per token with fields `email`, `name`,
`company`, `is_signup` (serialised as the string `"1"` or `"0"`) and
`created_at`. -/

/-- A stored magic-link token record, as the backing store keeps it. -/
structure TokenRecord where
  email : String
  name : Option String
  company : Option String
  is_signup : String
  created_at : String
deriving DecidableEq

/-- The backing key-value store for magic-link tokens: a map from token
string to stored record. -/
def TokenState : Type := String → Option TokenRecord

/-- Store a record under a token. -/
def TokenState.set (s : TokenState) (t : String) (r : TokenRecord) : TokenState :=
  fun x => if x = t then some r else s x

/-- Delete a token's record. -/
def TokenState.erase (s : TokenState) (t : String) : TokenState :=
  fun x => if x = t then none else s x

/-- The record a successful verification returns to its caller: the stored
fields with `is_signup` coerced to a boolean. -/
structure VerifiedToken where
  email : String
  name : Option String
  company : Option String
  isSignup : Bool
  created_at : String
deriving DecidableEq

/-- Modelled from the spec: `issue` / `create_magic_link_token` (§4.2).
Generates a fresh token from the random bytes, then attempts to store the
record with a TTL; on a backing-store failure (the `Except.error` case) it
logs the fault and still returns the freshly generated token, never failing
the caller.  `now` is the issuance timestamp rendered as a string. -/
def create_magic_link_token (store : Except String TokenState) (bytes : List Nat)
    (now : String) (email : String) (name : Option String := none)
    (company : Option String := none) (is_signup : Bool := false) :
    String × Except String TokenState :=
  let token := tokenUrlsafe bytes
  match store with
  | .error e => (token, .error e)
  | .ok s =>
      (token, .ok (s.set token
        { email := email, name := name, company := company,
          is_signup := if is_signup then "1" else "0", created_at := now }))

/-- Modelled from the spec: `verify` / `verify_magic_link_token` (§4.2, §5).
Looks the record up and, when found, deletes it as one atomic get-and-delete
against the backing store (the single-use enforcement §5 requires), returning
the stored fields with `is_signup` coerced to boolean; when not found it
returns `none` and leaves the store unchanged. -/
def verify_magic_link_token (s : TokenState) (t : String) :
    Option VerifiedToken × TokenState :=
  match s t with
  | none => (none, s)
  | some r =>
      (some { email := r.email, name := r.name, company := r.company,
              isSignup := r.is_signup == "1", created_at := r.created_at },
       s.erase t)

/-- A serialisation of `n` concurrent `verify(t)` callers: since each verify
is a single atomic operation against the backing store, any concurrent
execution is equivalent to some sequence of atomic verifies; this runs that
sequence and collects each caller's result in order. -/
def runVerifies (s : TokenState) (t : String) : Nat → List (Option VerifiedToken)
  | 0 => []
  | n + 1 =>
      let step := verify_magic_link_token s t
      step.1 :: runVerifies step.2 t n

/-! ## Session Store

Modelled from the spec: the module `orizon.auth.sessions` is not present in
the source tree (only `src/tests/orizon/auth/test_sessions.py` is), so the
store is modelled from §4.4 of the spec, with the stored-record shape taken
from the tests: a hash per session token with fields `email`, `user_id`,
`virtual_key` and `name`. -/

/-- A stored session record: the identity and credential snapshot taken at
session-creation time. -/
structure SessionRecord where
  email : String
  user_id : String
  virtual_key : String
  name : String
deriving DecidableEq

/-- The backing key-value store for sessions: a map from session token to
stored record. -/
def SessionState : Type := String → Option SessionRecord

/-- Store a record under a session token. -/
def SessionState.set (s : SessionState) (t : String) (r : SessionRecord) :
    SessionState :=
  fun x => if x = t then some r else s x

/-- Modelled from the spec: `create` / `create_session` (§4.4).  Generates an
unguessable session token from the random bytes, stores the full snapshot
with a fixed TTL, and returns the token. -/
def create_session (s : SessionState) (bytes : List Nat) (email user_id
    virtual_key name : String) : String × SessionState :=
  let token := tokenUrlsafe bytes
  (token,
   s.set token { email := email, user_id := user_id,
                 virtual_key := virtual_key, name := name })

/-- Modelled from the spec: `get` / `get_session` (§4.4).  Absent when the
token is unknown. -/
def get_session (s : SessionState) (t : String) : Option SessionRecord :=
  s t

/-! ## Credential Provisioner

Modelled from the spec: `generate_user_id` and `get_or_create_user_key` are
imported by the integration tests from `orizon.auth.utils`, but the
`utils.py` in the source tree does not define them, so they are modelled
from §4.3 of the spec.  The external Credential Authority is modelled as a
state holding its user records keyed by user id together with a key-minting
counter; each mint yields a fresh, never-before-issued opaque key string
carrying the recognisable `sk-` marker. -/

/-- A user record at the Credential Authority. -/
structure UserRecord where
  user_id : String
  user_email : String
deriving DecidableEq

/-- The Credential Authority's state: its user table and the supply of fresh
virtual keys, modelled as a mint counter. -/
structure Authority where
  users : String → Option UserRecord
  minted : Nat

/-- Modelled from the spec: the opaque virtual key the Authority returns for
its `n`-th mint — an `sk-`-prefixed string, distinct for distinct `n`. -/
def mintKey (n : Nat) : String :=
  "sk-" ++ String.mk (List.replicate (n + 1) 'k')

/-- Modelled from the spec: `deriveUserId` / `generate_user_id` (§4.3) — a
deterministic, stable derivation of the user id from the email, prefixed
with the gateway's namespace marker. -/
def generate_user_id (email : String) : String :=
  "orizon-" ++ email

/-- Modelled from the spec: `getOrCreateUserKey` / `get_or_create_user_key`
(§4.3).  Derives the user id from the email and fetches the user from the
Authority: when absent, a create-user call both creates the record and
returns the initial key; when present, a separate key-generation call mints
a new, distinct key for the existing record.  (The failure path, in which
any Authority error yields `(none, none)`, is not modelled: the claims under
verification quantify over successful calls.) -/
def get_or_create_user_key (a : Authority) (email : String) :
    (UserRecord × String) × Authority :=
  let uid := generate_user_id email
  match a.users uid with
  | none =>
      let r : UserRecord := { user_id := uid, user_email := email }
      let key := mintKey a.minted
      ((r, key),
       { users := fun x => if x = uid then some r else a.users x,
         minted := a.minted + 1 })
  | some r =>
      let key := mintKey a.minted
      ((r, key), { users := a.users, minted := a.minted + 1 })

/-! ## Auth routes

Modelled from the spec: the module `orizon.auth.routes` is not present in
the source tree (only `src/tests/orizon/auth/test_routes.py` is), so the
login endpoint is modelled from §6 of the spec: `POST /auth/login` looks the
user up, issues a login-flavoured magic-link token for the email whether or
not a user exists, triggers delivery, and returns the same generic success
response in both cases. -/

/-- The HTTP response of an auth route: status code and the `success` field
of the JSON body. -/
structure AuthResponse where
  status : Nat
  success : Bool
deriving DecidableEq

/-- Modelled from the spec: the `POST /auth/login` handler.  `getUser` is
the Credential Authority user lookup; its result does not influence the
response (anti-enumeration).  A login-flavoured (non-signup) magic-link
token is issued for the email in both cases; the response is the generic
success acknowledgment. -/
def loginRoute (getUser : String → Option UserRecord) (store : TokenState)
    (bytes : List Nat) (now : String) (email : String) :
    AuthResponse × String × Except String TokenState :=
  let _user := getUser email
  let issued := create_magic_link_token (.ok store) bytes now email none none false
  ({ status := 200, success := true }, issued.1, issued.2)

/-! ## Concrete inputs used by witnesses and counterexamples -/

/-- A request on the internal path: a non-health path with the primary
trusted email header set. -/
def internalReq : Request :=
  { path := "/api/chat", headers := [("X-Auth-Request-Email", "user@example.com")] }

/-- A request whose primary email header is present but empty while the
secondary header carries a value. -/
def emptyPrimaryReq : Request :=
  { path := "/api/chat", headers := [("X-Auth-Request-Email", ""), ("X-Email", "b@x.com")] }

/-- A request carrying both email headers with non-empty values. -/
def bothPresentReq : Request :=
  { path := "/api/chat", headers := [("X-Auth-Request-Email", "a@x.com"), ("X-Email", "b@x.com")] }

/-- A request whose primary email header is present but empty and whose
secondary email header is absent. -/
def onlyEmptyPrimaryReq : Request :=
  { path := "/api/chat", headers := [("X-Auth-Request-Email", "")] }

/-- A sample stored magic-link record. -/
def sampleRecord : TokenRecord :=
  { email := "user@example.com", name := some "Test User", company := none,
    is_signup := "0", created_at := "2025-01-01T00:00:00" }

/-- A token store holding one valid token. -/
def sampleStore : TokenState :=
  fun x => if x = "valid-token" then some sampleRecord else none

/-- 32 bytes of (fixed) entropy. -/
def bytes32 : List Nat := List.replicate 32 7

/-- A Credential Authority with no users and no keys minted yet. -/
def authority0 : Authority := { users := fun _ => none, minted := 0 }

/-! ## Helper lemmas -/

/-- The base64 rendering is at least as long as the byte list it encodes. -/
theorem length_le_b64Encode (l : List Nat) : l.length ≤ (b64Encode l).length := by
  induction l using b64Encode.induct with
  | case1 b0 b1 b2 rest ih => simp [b64Encode]; omega
  | case2 b0 b1 => simp [b64Encode]
  | case3 b0 => simp [b64Encode]
  | case4 => simp [b64Encode]

/-- Deleting a token makes its lookup absent. -/
theorem TokenState.erase_self (s : TokenState) (t : String) : s.erase t t = none := by
  simp [TokenState.erase]

/-- Once a token is absent, every further verify in a serialisation returns
absent and leaves the store unchanged. -/
theorem runVerifies_absent (s : TokenState) (t : String) (h : s t = none) :
    ∀ n, runVerifies s t n = List.replicate n none := by
  intro n
  induction n with
  | zero => rfl
  | succ k ih =>
      simp only [runVerifies, verify_magic_link_token, h, List.replicate]
      exact congrArg (List.cons none) ih

/-- Distinct mints yield distinct key strings. -/
theorem mintKey_ne (m n : Nat) (h : m ≠ n) : mintKey m ≠ mintKey n := by
  intro heq
  have hlen := congrArg String.length heq
  simp [mintKey, String.length_append, String.length] at hlen
  exact h hlen

/-- Evaluation of `get_or_create_user_key` when the derived id is absent:
the Authority creates the record and returns the initial key. -/
theorem get_or_create_absent (a : Authority) (email : String)
    (h : a.users (generate_user_id email) = none) :
    get_or_create_user_key a email =
      (({ user_id := generate_user_id email, user_email := email },
        mintKey a.minted),
       { users := fun x => if x = generate_user_id email then
           some { user_id := generate_user_id email, user_email := email }
           else a.users x,
         minted := a.minted + 1 }) := by
  simp [get_or_create_user_key, h]

/-- Evaluation of `get_or_create_user_key` when the derived id is present:
the Authority returns the existing record with a freshly minted key. -/
theorem get_or_create_present (a : Authority) (email : String) (r : UserRecord)
    (h : a.users (generate_user_id email) = some r) :
    get_or_create_user_key a email =
      ((r, mintKey a.minted),
       { users := a.users, minted := a.minted + 1 }) := by
  simp [get_or_create_user_key, h]

/-! ## Claim theorems -/

/-- C5: the Auth Dispatcher always forwards: for every inbound request and
every downstream handler, `dispatch` forwards the request to the next
handler exactly once — and forwards it unmodified — and passes the
downstream response back unmodified; no branch (health, internal, external)
aborts the request. -/
theorem dispatch_always_forwards_once {ρ : Type} (callNext : Request → ρ)
    (req : Request) :
    (dispatch callNext req).2 = [req] ∧
    (dispatch callNext req).1 = callNext req := by
  unfold dispatch
  split
  · exact ⟨rfl, rfl⟩
  · split
    · exact ⟨rfl, rfl⟩
    · exact ⟨rfl, rfl⟩

/-- C4: on a request carrying the internal email header, `dispatch` takes
the internal branch but forwards the request completely unchanged — in
particular with no `Authorization` header attached — contradicting the
claimed `Bearer <virtualKey>` attachment (the provisioning and
header-attachment steps in the source are TODO stubs). -/
theorem dispatch_internal_adds_no_auth_header :
    dispatchBranch internalReq = .internal ∧
    dispatch (fun r => r) internalReq = (internalReq, [internalReq]) ∧
    headerGet internalReq.headers "Authorization" = none := by
  refine ⟨by decide, by decide, by decide⟩

/-- C6 counterexample: a request whose primary header `X-Auth-Request-Email`
is present (with the empty string as value) while `X-Email` is `b@x.com`:
`get_user_email` returns the secondary value `b@x.com`, not the present
primary value, so "the primary header wins when present" fails as stated. -/
theorem get_user_email_empty_primary_cex :
    headerGet emptyPrimaryReq.headers "X-Auth-Request-Email" = some "" ∧
    get_user_email emptyPrimaryReq = some "b@x.com" ∧
    get_user_email emptyPrimaryReq ≠
      headerGet emptyPrimaryReq.headers "X-Auth-Request-Email" := by
  refine ⟨by decide, by decide, by decide⟩

/-- C6 (amended): email resolution returns the primary header
`X-Auth-Request-Email` whenever it is present with a non-empty value — in
particular the primary wins when both headers are present and non-empty —
and otherwise (primary absent or empty) returns exactly the result of the
secondary `X-Email` lookup: its value when present, absent when not. -/
theorem get_user_email_precedence (req : Request) :
    (pyTruthy (headerGet req.headers "X-Auth-Request-Email") = true →
      get_user_email req = headerGet req.headers "X-Auth-Request-Email") ∧
    (pyTruthy (headerGet req.headers "X-Auth-Request-Email") = false →
      get_user_email req = headerGet req.headers "X-Email") := by
  unfold get_user_email pyOr pyTruthy
  cases h : headerGet req.headers "X-Auth-Request-Email" with
  | none => exact ⟨fun hc => by simp at hc, fun _ => rfl⟩
  | some s =>
      by_cases hs : s = ""
      · subst hs
        exact ⟨fun hc => by simp at hc, fun _ => by simp⟩
      · exact ⟨fun _ => by simp [hs], fun hc => by simp [hs] at hc⟩

/-- C6 witness: with both headers non-empty the primary value `a@x.com`
wins, and with an empty primary the X-Email lookup result is returned. -/
theorem get_user_email_precedence_witness :
    get_user_email bothPresentReq =
      headerGet bothPresentReq.headers "X-Auth-Request-Email" ∧
    get_user_email emptyPrimaryReq =
      headerGet emptyPrimaryReq.headers "X-Email" :=
  ⟨(get_user_email_precedence bothPresentReq).1 (by decide),
   (get_user_email_precedence emptyPrimaryReq).2 (by decide)⟩

/-- C10: an empty-string primary email header is treated as absent by the
falsy-`or` chaining: `get_user_email` returns exactly the `X-Email` lookup
result instead, and when that result is also falsy (absent or empty) a
non-health request has no internal identity and takes the external branch
of the dispatcher. -/
theorem empty_primary_falls_back (req : Request)
    (hp : headerGet req.headers "X-Auth-Request-Email" = some "") :
    get_user_email req = headerGet req.headers "X-Email" ∧
    (pyTruthy (headerGet req.headers "X-Email") = false →
      startswith req.path "/health" = false →
      dispatchBranch req = .external) := by
  have hmail : get_user_email req = headerGet req.headers "X-Email" := by
    unfold get_user_email
    rw [hp]
    rfl
  refine ⟨hmail, fun hfalsy hpath => ?_⟩
  unfold dispatchBranch
  rw [hpath, hmail, hfalsy]
  simp

/-- C10 witness: a request with an empty primary header and no `X-Email`
header resolves to no email and takes the external branch. -/
theorem empty_primary_falls_back_witness :
    get_user_email onlyEmptyPrimaryReq =
      headerGet onlyEmptyPrimaryReq.headers "X-Email" ∧
    dispatchBranch onlyEmptyPrimaryReq = .external :=
  ⟨(empty_primary_falls_back onlyEmptyPrimaryReq (by decide)).1,
   (empty_primary_falls_back onlyEmptyPrimaryReq (by decide)).2
     (by decide) (by decide)⟩

/-- C2: verification is destructive and single-use: a `verify(t)` that finds
the stored record returns the stored fields with `is_signup` coerced to a
boolean and deletes the record in the same operation, so that a subsequent
`verify(t)` on the resulting store returns absent. -/
theorem verify_destructive_single_use (s : TokenState) (t : String)
    (r : TokenRecord) (h : s t = some r) :
    (verify_magic_link_token s t).1 =
      some { email := r.email, name := r.name, company := r.company,
             isSignup := r.is_signup == "1", created_at := r.created_at } ∧
    (verify_magic_link_token s t).2 t = none ∧
    (verify_magic_link_token (verify_magic_link_token s t).2 t).1 = none := by
  unfold verify_magic_link_token
  rw [h]
  refine ⟨rfl, TokenState.erase_self s t, ?_⟩
  simp [TokenState.erase_self s t]

/-- C2 witness: verifying the sample token returns its record with
`isSignup = false` and a second verify returns absent. -/
theorem verify_destructive_single_use_witness :
    (verify_magic_link_token sampleStore "valid-token").1 =
      some { email := sampleRecord.email, name := sampleRecord.name,
             company := sampleRecord.company,
             isSignup := sampleRecord.is_signup == "1",
             created_at := sampleRecord.created_at } ∧
    (verify_magic_link_token sampleStore "valid-token").2 "valid-token" = none ∧
    (verify_magic_link_token
      (verify_magic_link_token sampleStore "valid-token").2 "valid-token").1 = none :=
  verify_destructive_single_use sampleStore "valid-token" sampleRecord (by decide)

/-- C1: single-use under concurrency: each verify being one atomic
get-and-delete against the backing store, any concurrent execution of
`n + 1` `verify(t)` callers serialises to a sequence of atomic verifies, and
in every such serialisation exactly one caller receives the stored record
(coerced) while all `n` others receive absent. -/
theorem verify_exactly_one_winner (s : TokenState) (t : String)
    (r : TokenRecord) (n : Nat) (h : s t = some r) :
    runVerifies s t (n + 1) =
      some { email := r.email, name := r.name, company := r.company,
             isSignup := r.is_signup == "1", created_at := r.created_at }
        :: List.replicate n none := by
  have hstep : verify_magic_link_token s t =
      (some { email := r.email, name := r.name, company := r.company,
              isSignup := r.is_signup == "1", created_at := r.created_at },
       s.erase t) := by
    unfold verify_magic_link_token
    rw [h]
  simp only [runVerifies, hstep]
  exact congrArg (List.cons _)
    (runVerifies_absent (s.erase t) t (TokenState.erase_self s t) n)

/-- C1 witness: three concurrent verifies of the sample token serialise so
that the first receives the record and the other two receive absent. -/
theorem verify_exactly_one_winner_witness :
    runVerifies sampleStore "valid-token" 3 =
      some { email := sampleRecord.email, name := sampleRecord.name,
             company := sampleRecord.company,
             isSignup := sampleRecord.is_signup == "1",
             created_at := sampleRecord.created_at }
        :: List.replicate 2 none :=
  verify_exactly_one_winner sampleStore "valid-token" sampleRecord 2 (by decide)

/-- C3: issuance never fails its caller: for every email and optional
metadata, and for every state of the backing store — available or failed —
`create_magic_link_token` returns the freshly generated token, whose length
exceeds 20 for a 32-byte entropy draw; the operation is total, so no
exception reaches the caller. -/
theorem create_token_never_fails (store : Except String TokenState)
    (bytes : List Nat) (now email : String) (name company : Option String)
    (is_signup : Bool) (h : bytes.length = 32) :
    (create_magic_link_token store bytes now email name company is_signup).1 =
      tokenUrlsafe bytes ∧
    20 < (create_magic_link_token store bytes now email name company
            is_signup).1.length := by
  have htok :
      (create_magic_link_token store bytes now email name company is_signup).1 =
        tokenUrlsafe bytes := by
    cases store <;> rfl
  refine ⟨htok, ?_⟩
  rw [htok]
  have hlen := length_le_b64Encode bytes
  simp only [tokenUrlsafe, String.length]
  rw [h] at hlen
  omega

/-- C3 witness: with the backing store failing, issuance still returns the
generated token of length greater than 20. -/
theorem create_token_never_fails_witness :
    (create_magic_link_token (.error "Redis unavailable") bytes32
      "2025-01-01T00:00:00" "test@example.com" none none false).1 =
      tokenUrlsafe bytes32 ∧
    20 < (create_magic_link_token (.error "Redis unavailable") bytes32
      "2025-01-01T00:00:00" "test@example.com" none none false).1.length :=
  create_token_never_fails (.error "Redis unavailable") bytes32
    "2025-01-01T00:00:00" "test@example.com" none none false (by decide)

/-- C7: the login endpoint does not reveal user existence: for any two user
lookups — e.g. one finding a user for the email and one finding none — the
response is the identical generic success `{status 200, success true}`, and
in both cases a login-flavoured magic-link token (stored `is_signup = "0"`)
is issued for the email. -/
theorem login_no_enumeration (g1 g2 : String → Option UserRecord)
    (store : TokenState) (bytes : List Nat) (now email : String) :
    (loginRoute g1 store bytes now email).1 =
      (loginRoute g2 store bytes now email).1 ∧
    (loginRoute g1 store bytes now email).1 =
      { status := 200, success := true } ∧
    (loginRoute g1 store bytes now email).2.2 =
      .ok (store.set (tokenUrlsafe bytes)
        { email := email, name := none, company := none,
          is_signup := "0", created_at := now }) ∧
    store.set (tokenUrlsafe bytes)
        { email := email, name := none, company := none,
          is_signup := "0", created_at := now }
        (loginRoute g1 store bytes now email).2.1 =
      some { email := email, name := none, company := none,
             is_signup := "0", created_at := now } := by
  refine ⟨rfl, rfl, rfl, ?_⟩
  simp [loginRoute, create_magic_link_token, TokenState.set]

/-- C8: `get_or_create_user_key` called twice in succession for an email the
Credential Authority does not yet know yields the same deterministically
derived user id both times but two distinct virtual keys. -/
theorem get_or_create_twice_same_id_fresh_keys (a : Authority) (email : String)
    (h : a.users (generate_user_id email) = none) :
    (get_or_create_user_key a email).1.1.user_id =
      (get_or_create_user_key (get_or_create_user_key a email).2 email).1.1.user_id ∧
    (get_or_create_user_key a email).1.2 ≠
      (get_or_create_user_key (get_or_create_user_key a email).2 email).1.2 := by
  have h1 := get_or_create_absent a email h
  have h2 : (get_or_create_user_key a email).2.users (generate_user_id email) =
      some { user_id := generate_user_id email, user_email := email } := by
    rw [h1]
    simp
  have h3 := get_or_create_present (get_or_create_user_key a email).2 email
    { user_id := generate_user_id email, user_email := email } h2
  rw [h3, h1]
  exact ⟨rfl, mintKey_ne a.minted (a.minted + 1) (by omega)⟩

/-- C8 witness: two calls for a fresh email on an empty Authority agree on
the user id and disagree on the virtual key. -/
theorem get_or_create_twice_witness :
    (get_or_create_user_key authority0 "dev@company.com").1.1.user_id =
      (get_or_create_user_key
        (get_or_create_user_key authority0 "dev@company.com").2
        "dev@company.com").1.1.user_id ∧
    (get_or_create_user_key authority0 "dev@company.com").1.2 ≠
      (get_or_create_user_key
        (get_or_create_user_key authority0 "dev@company.com").2
        "dev@company.com").1.2 :=
  get_or_create_twice_same_id_fresh_keys authority0 "dev@company.com" rfl

/-- C9: session round-trip: for all inputs, `get` on the token returned by
`create(email, userId, virtualKey, name)` returns a record whose fields
equal those inputs. -/
theorem session_round_trip (s : SessionState) (bytes : List Nat)
    (email uid key name : String) :
    get_session (create_session s bytes email uid key name).2
        (create_session s bytes email uid key name).1 =
      some { email := email, user_id := uid, virtual_key := key,
             name := name } := by
  simp [get_session, create_session, SessionState.set]

end Orizon
